import Mathlib

/-!
Verification of the dagster-sqlmesh translation layer.

The module under study translates SQLMesh model identities (fully-qualified
names, tags) into Dagster asset-graph primitives (asset keys, asset outputs,
group names, tags).  We embed the two source files
(`dagster_sqlmesh/types.py` and `dagster_sqlmesh/translator.py`) shallowly:
Python strings become `String`, Python `str.split` / `str.strip` are modelled
character-by-character, fallible operations (Python `IndexError`, `TypeError`)
become `Option` / `Except`, and the two external collaborators that the module
only consumes through their public shapes (the sqlglot table-reference parser
`exp.to_table` and Dagster's `AssetKey` / `AssetOut` constructors) are modelled
from the specification of their contracts.
-/

/-- The dot character `.` (code 46), the separator of fully-qualified names. -/
def dotChar : Char := Char.ofNat 46

/-- The single-quote character (code 39). -/
def squoteChar : Char := Char.ofNat 39

/-- The double-quote character (code 34). -/
def dquoteChar : Char := Char.ofNat 34

/-- The underscore character `_` (code 95). -/
def underscoreChar : Char := Char.ofNat 95

/-- The slash character `/` (code 47), Dagster's user-string key separator. -/
def slashChar : Char := Char.ofNat 47

/-- A one-character string holding a single quote. -/
def squoteStr : String := String.mk [squoteChar]

/-- The quote characters stripped by `SQLMeshParsedFQN.parse`
(the Python call `a.strip("'\"")` uses the set holding `'` and `"`). -/
def quoteChars : List Char := [squoteChar, dquoteChar]

/-- Helper for `pySplit`: walks the character list, accumulating the current
segment (in reverse) and emitting it whenever the separator is met.  Mirrors
the semantics of Python `str.split(sep)` for a one-character separator. -/
def splitCharsAux (sep : Char) : List Char → List Char → List (List Char)
  | [], acc => [acc.reverse]
  | c :: cs, acc =>
    if c = sep then acc.reverse :: splitCharsAux sep cs []
    else splitCharsAux sep cs (c :: acc)

/-- Model of Python `s.split(sep)` for a one-character separator `sep`:
always returns at least one segment; `"".split(".") == [""]`,
`"a..b".split(".") == ["a", "", "b"]`. -/
def pySplit (s : String) (sep : Char) : List String :=
  (splitCharsAux sep s.toList []).map String.mk

/-- Model of Python `s.strip(chars)`: removes every leading and every trailing
character belonging to the set `cs`. -/
def stripChars (cs : List Char) (s : String) : String :=
  String.mk (((s.toList.dropWhile (fun c => c ∈ cs)).reverse.dropWhile
    (fun c => c ∈ cs)).reverse)

/-- Model of Python `sep.join(parts)`. -/
def joinWith (sep : String) : List String → String
  | [] => ""
  | [s] => s
  | s :: rest => s ++ sep ++ joinWith sep rest

/-- Key order of a Python dict comprehension `\x7bk: v for k in l\x7d`: first
occurrence of each key is kept in place, later duplicates are dropped
(they merely overwrite the value). -/
def pyDictKeys : List String → List String
  | [] => []
  | k :: ks => k :: (pyDictKeys ks).filter (fun x => x ≠ k)

/-- A character allowed in the internal flat identifier per the docstring of
`get_asset_key_str`: alphanumeric or underscore. -/
def isIdentChar (c : Char) : Bool := c.isAlphanum || c = underscoreChar

/-! ## `dagster_sqlmesh/types.py` -/

/-- `SQLMeshParsedFQN` from `types.py`: catalog, schema and view name of a
fully-qualified SQLMesh identifier. -/
structure SQLMeshParsedFQN where
  catalog : String
  schema : String
  view_name : String
deriving DecidableEq, Repr

/-- `SQLMeshParsedFQN.parse` from `types.py`: split the fqn on `.`, strip
single and double quotes from every segment, then read segments `[0]`, `[1]`
and `[2]`.  The Python indexing raises `IndexError` when fewer than three
segments exist, modelled by `none`; when more than three segments exist the
indexing silently uses the first three. -/
def SQLMeshParsedFQN.parse (fqn : String) : Option SQLMeshParsedFQN :=
  let split_fqn := (pySplit fqn dotChar).map (stripChars quoteChars)
  match split_fqn with
  | a :: b :: c :: _ => some ⟨a, b, c⟩
  | _ => none

/-! ## External collaborators, modelled from the spec -/

/-- The decomposed table reference produced by the external SQL-identifier
utility: catalog, database (schema) and table name. -/
structure Table where
  catalog : String
  db : String
  name : String
deriving DecidableEq, Repr

/-- Modelled from the spec: `exp.to_table`, the transformation engine's
table-reference parser, is missing from `src/` (it is the external
SQL-identifier utility the translator delegates to).  Per the spec it
"decomposes a fully-qualified name string into catalog/schema/name
components", each component "optionally wrapped in single or double quotes"
with the surrounding quote characters stripped; a shorter dotted name fills
the trailing components, leaving the leading ones empty. -/
def toTable (fqn : String) : Table :=
  let parts := (pySplit fqn dotChar).map (stripChars quoteChars)
  match parts.reverse with
  | [] => ⟨"", "", ""⟩
  | [n] => ⟨"", "", n⟩
  | [n, d] => ⟨"", d, n⟩
  | n :: d :: rest => ⟨joinWith "." rest.reverse, d, n⟩

/-- Dagster's hierarchical asset key: an ordered sequence of path components. -/
structure AssetKey where
  path : List String
deriving DecidableEq, Repr

/-- Modelled from the spec: Dagster's `AssetKey.from_user_string` is missing
from `src/`.  Per the spec it applies "the platform's user-string key-parsing
rules (components typically separated by `/` ...)". -/
def AssetKey.from_user_string (s : String) : AssetKey :=
  ⟨pySplit s slashChar⟩

/-- Dagster's `AssetOut` output descriptor, restricted to the fields this
module passes: key, tags, required flag, group name and kind labels. -/
structure AssetOut where
  key : AssetKey
  tags : Option (List (String × String))
  is_required : Bool
  group_name : Option String
  kinds : Option (List String)
deriving DecidableEq, Repr

/-! ## `dagster_sqlmesh/translator.py` — deferred descriptors -/

/-- `IntermediateAssetOut` from `translator.py`: the deferred output
descriptor.  The catch-all `kwargs: dict[str, Any]` is modelled by the list
of extra keyword names it would forward.  Field defaults follow the
dataclass defaults (`is_required: bool = True`). -/
structure IntermediateAssetOut where
  model_key : String
  asset_key : String
  tags : Option (List (String × String)) := none
  is_required : Bool := true
  group_name : Option String := none
  kinds : Option (List String) := none
  kwargs : List String := []
deriving DecidableEq, Repr

/-- The keyword arguments of one call to the `AssetOut` constructor, as
issued by `IntermediateAssetOut.to_asset_out`.  `kindsArg = none` means the
`kinds` keyword is absent from the call; `kindsArg = some v` means the
keyword is passed with value `v`. -/
structure AssetOutCall where
  key : AssetKey
  tags : Option (List (String × String))
  is_required : Bool
  group_name : Option String
  kindsArg : Option (Option (List String))
  extra : List String
deriving DecidableEq, Repr

/-- The keyword arguments `to_asset_out` hands to the `AssetOut` constructor,
read off the source: `key`, `tags`, `is_required` and `group_name` come from
the stored fields, the `kinds` keyword is always present, carrying the stored
value when `"kinds" in signature(AssetOut).parameters` and `None` otherwise,
and the stored `kwargs` are splatted in. -/
def IntermediateAssetOut.assetOutCall (supportsKinds : Bool)
    (o : IntermediateAssetOut) : AssetOutCall :=
  { key := AssetKey.from_user_string o.asset_key
    tags := o.tags
    is_required := o.is_required
    group_name := o.group_name
    kindsArg := some (if supportsKinds then o.kinds else none)
    extra := o.kwargs }

/-- Modelled from the spec: evaluating a call to Dagster's `AssetOut`
constructor, which is missing from `src/`.  Per the spec the running
platform version may or may not "support a 'kinds' attribute"; per Python
calling semantics, a keyword argument the constructor does not declare makes
the call raise `TypeError`. -/
def AssetOutCall.run (supportsKinds : Bool) (call : AssetOutCall) :
    Except String AssetOut :=
  match call.kindsArg with
  | none => Except.ok ⟨call.key, call.tags, call.is_required,
      call.group_name, none⟩
  | some v =>
    if supportsKinds then
      Except.ok ⟨call.key, call.tags, call.is_required, call.group_name, v⟩
    else
      Except.error "TypeError: AssetOut got an unexpected keyword argument kinds"

/-- `IntermediateAssetOut.to_asset_out` from `translator.py`: resolve the
deferred descriptor into a Dagster `AssetOut` by issuing the recorded
constructor call against the running platform. -/
def IntermediateAssetOut.to_asset_out (supportsKinds : Bool)
    (o : IntermediateAssetOut) : Except String AssetOut :=
  (o.assetOutCall supportsKinds).run supportsKinds

/-- `IntermediateAssetDep` from `translator.py`: deferred representation of a
dependency edge. -/
structure IntermediateAssetDep where
  key : String
deriving DecidableEq, Repr

/-- `IntermediateAssetDep.to_asset_key` from `translator.py`:
`AssetKey.from_user_string(self.key)`. -/
def IntermediateAssetDep.to_asset_key (d : IntermediateAssetDep) : AssetKey :=
  AssetKey.from_user_string d.key

/-! ## `dagster_sqlmesh/translator.py` — the translator -/

/-- The SQLMesh model record, consumed only through its public shape:
a fully-qualified name and an iterable of tag names (spec §6). -/
structure Model where
  fqn : String
  tags : List String
deriving DecidableEq, Repr

/-- Model of Python negative indexing `l[-k]` on a list: valid exactly when
`k ≤ len(l)` (and `k > 0`), otherwise `IndexError`, modelled by `none`. -/
def pyIndexFromEnd (l : List String) (k : Nat) : Option String :=
  if 0 < k ∧ k ≤ l.length then l.get? (l.length - k) else none

namespace SQLMeshDagsterTranslator

/-- `SQLMeshDagsterTranslator.get_asset_key_name` from `translator.py`:
`table = exp.to_table(fqn); [table.catalog, table.db, table.name]`. -/
def get_asset_key_name (fqn : String) : List String :=
  let table := toTable fqn
  [table.catalog, table.db, table.name]

/-- `SQLMeshDagsterTranslator.get_asset_key` from `translator.py`: wraps the
`get_asset_key_name` components into an `AssetKey`.  The `context` argument
of the source is unused there and omitted here. -/
def get_asset_key (fqn : String) : AssetKey :=
  ⟨get_asset_key_name fqn⟩

/-- `SQLMeshDagsterTranslator.get_group_name` from `translator.py`:
`path = self.get_asset_key_name(model.fqn); return path[-2]`.  The unused
`context` argument is omitted; the Python negative indexing is modelled
faithfully by `pyIndexFromEnd`. -/
def get_group_name (model : Model) : Option String :=
  let path := get_asset_key_name model.fqn
  pyIndexFromEnd path 2

/-- `SQLMeshDagsterTranslator.get_asset_key_str` from `translator.py`:
`table = exp.to_table(fqn); "sqlmesh__" + "_".join([table.catalog, table.db,
table.name])`. -/
def get_asset_key_str (fqn : String) : String :=
  let table := toTable fqn
  "sqlmesh__" ++ joinWith "_" [table.catalog, table.db, table.name]

/-- `SQLMeshDagsterTranslator.get_tags` from `translator.py`:
`\x7bk: "" for k in model.tags\x7d` — an association list whose keys follow
Python dict-comprehension key semantics and whose values are all `""`.
The unused `context` argument is omitted. -/
def get_tags (model : Model) : List (String × String) :=
  (pyDictKeys model.tags).map (fun k => (k, ""))

/-- `SQLMeshDagsterTranslator.create_asset_dep` from `translator.py`. -/
def create_asset_dep (key : String) : IntermediateAssetDep :=
  ⟨key⟩

/-- The optional keyword arguments accepted by `create_asset_out`
(`**kwargs`): the four keys it pops, each absent by default, plus the
remaining keyword names it forwards unchanged. -/
structure Kwargs where
  kinds : Option (List String) := none
  tags : Option (List (String × String)) := none
  group_name : Option String := none
  is_required : Option Bool := none
  extra : List String := []
deriving DecidableEq, Repr

/-- `SQLMeshDagsterTranslator.create_asset_out` from `translator.py`:
pops `kinds`, `tags` and `group_name` with default `None`, pops
`is_required` with default `False`, and stores the remaining kwargs. -/
def create_asset_out (model_key asset_key : String)
    (kwargs : Kwargs) : IntermediateAssetOut :=
  { model_key := model_key
    asset_key := asset_key
    kinds := kwargs.kinds
    tags := kwargs.tags
    group_name := kwargs.group_name
    is_required := kwargs.is_required.getD false
    kwargs := kwargs.extra }

end SQLMeshDagsterTranslator

/-- The flat-identifier builder at the heart of `get_asset_key_str`, as a
function of the decomposed (catalog, schema, name) triple:
`"sqlmesh__" + "_".join([catalog, schema, name])`. -/
def flattenTriple (catalog db name : String) : String :=
  "sqlmesh__" ++ joinWith "_" [catalog, db, name]

/-! ## Concrete inputs used in the analysis -/

/-- A one-character string holding an underscore. -/
def underscoreStr : String := String.mk [underscoreChar]

/-- The quoted single-segment identifier `"my-table"` (double quotes included
in the string), a legal quoted SQL identifier whose name carries a hyphen. -/
def quotedHyphenFqn : String :=
  String.mk [dquoteChar] ++ "my-table" ++ String.mk [dquoteChar]

/-- The three-segment identifier `'a'."b".c` from the spec's example
(single-quoted catalog, double-quoted schema, bare view name). -/
def quotedFqnExample : String :=
  squoteStr ++ "a" ++ squoteStr ++ ".\"b\".c"

/-- A deferred output descriptor carrying a kind label, used to exercise the
`kinds` compatibility shim. -/
def kindsOutExample : IntermediateAssetOut :=
  { model_key := "m", asset_key := "k", kinds := some ["dbt"] }

/-! ## Helper lemmas -/

/-- `splitCharsAux` over a separator-free list yields a single segment. -/
lemma splitCharsAux_sepFree (sep : Char) (l : List Char)
    (h : ∀ c ∈ l, c ≠ sep) :
    ∀ acc, splitCharsAux sep l acc = [acc.reverse ++ l] := by
  induction l with
  | nil => intro acc; simp [splitCharsAux]
  | cons x xs ih =>
    intro acc
    have hx : x ≠ sep := h x (by simp)
    rw [splitCharsAux, if_neg hx, ih (fun c hc => h c (by simp [hc]))]
    simp

/-- `splitCharsAux` emits the separator-free block before the first
separator as one segment and recurses on the remainder. -/
lemma splitCharsAux_append (sep : Char) (l rest : List Char)
    (h : ∀ c ∈ l, c ≠ sep) :
    ∀ acc, splitCharsAux sep (l ++ sep :: rest) acc
      = (acc.reverse ++ l) :: splitCharsAux sep rest [] := by
  induction l with
  | nil =>
    intro acc
    simp [splitCharsAux]
  | cons x xs ih =>
    intro acc
    have hx : x ≠ sep := h x (by simp)
    rw [List.cons_append, splitCharsAux, if_neg hx,
      ih (fun c hc => h c (by simp [hc]))]
    simp

/-- The flat identifier written as explicit string concatenation. -/
lemma flattenTriple_eq_append (c d n : String) :
    flattenTriple c d n
      = "sqlmesh" ++ underscoreStr ++ underscoreStr ++ c ++ underscoreStr
          ++ d ++ underscoreStr ++ n := by
  have h1 : "sqlmesh__" = "sqlmesh" ++ underscoreStr ++ underscoreStr := by
    decide
  have h2 : "_" = underscoreStr := by decide
  simp only [flattenTriple, joinWith, h1, h2, String.append_assoc]

/-- The character list underlying the flat identifier. -/
lemma data_flattenTriple (c d n : String) :
    (flattenTriple c d n).data
      = "sqlmesh".data ++ underscoreChar :: underscoreChar ::
          (c.data ++ underscoreChar :: (d.data ++ underscoreChar :: n.data)) := by
  rw [flattenTriple_eq_append]
  simp [String.data_append, underscoreStr]

/-- Splitting the flat identifier on underscores recovers the components,
provided the components themselves are underscore-free. -/
lemma pySplit_flattenTriple (c d n : String)
    (hc : ∀ ch ∈ c.data, ch ≠ underscoreChar)
    (hd : ∀ ch ∈ d.data, ch ≠ underscoreChar)
    (hn : ∀ ch ∈ n.data, ch ≠ underscoreChar) :
    pySplit (flattenTriple c d n) underscoreChar = ["sqlmesh", "", c, d, n] := by
  have hsql : ∀ ch ∈ "sqlmesh".data, ch ≠ underscoreChar := by decide
  unfold pySplit
  rw [show (flattenTriple c d n).toList = (flattenTriple c d n).data from rfl,
    data_flattenTriple]
  rw [splitCharsAux_append underscoreChar _ _ hsql]
  rw [show (underscoreChar :: (c.data ++ underscoreChar ::
      (d.data ++ underscoreChar :: n.data)))
    = ([] ++ underscoreChar :: (c.data ++ underscoreChar ::
      (d.data ++ underscoreChar :: n.data))) from rfl]
  rw [splitCharsAux_append underscoreChar [] _ (by simp)]
  rw [splitCharsAux_append underscoreChar _ _ hc]
  rw [splitCharsAux_append underscoreChar _ _ hd]
  rw [splitCharsAux_sepFree underscoreChar _ hn]
  simp [String.ext_iff]

/-- An alphanumeric character is not the underscore. -/
lemma alphanum_ne_underscore (ch : Char) (h : ch.isAlphanum = true) :
    ch ≠ underscoreChar := by
  intro he
  subst he
  simp [Char.isAlphanum, Char.isAlpha, Char.isDigit, Char.isUpper,
    Char.isLower, underscoreChar] at h

/-- Membership in the Python dict-comprehension key list coincides with
membership in the source list. -/
lemma mem_pyDictKeys (k : String) (l : List String) :
    k ∈ pyDictKeys l ↔ k ∈ l := by
  induction l with
  | nil => simp [pyDictKeys]
  | cons x xs ih =>
    simp only [pyDictKeys, List.mem_cons, List.mem_filter]
    by_cases hk : k = x
    · simp [hk]
    · simp only [hk, false_or, ih]
      constructor
      · rintro ⟨h, _⟩; exact h
      · intro h; exact ⟨h, by simp [hk]⟩

/-- C1 (counterexample): the dot-split of `"a.b.c.d"` has four segments, yet
`SQLMeshParsedFQN.parse` succeeds, silently truncating to the first three. -/
theorem claim_C1_counterexample :
    (pySplit "a.b.c.d" dotChar).length = 4 ∧
    SQLMeshParsedFQN.parse "a.b.c.d"
      = some { catalog := "a", schema := "b", view_name := "c" } := by
  decide

/-- C1 (amended): `SQLMeshParsedFQN.parse` fails (with an index error,
returning no `ParsedFQN`) exactly on inputs whose dot-split yields fewer than
three segments; on three or more segments it succeeds, assigning the first
three quote-stripped segments and silently discarding the rest. -/
theorem claim_C1_amended (fqn : String) :
    ((pySplit fqn dotChar).length < 3 → SQLMeshParsedFQN.parse fqn = none) ∧
    (∀ a b c rest, pySplit fqn dotChar = a :: b :: c :: rest →
      SQLMeshParsedFQN.parse fqn
        = some { catalog := stripChars quoteChars a,
                 schema := stripChars quoteChars b,
                 view_name := stripChars quoteChars c }) := by
  constructor
  · intro hlen
    rcases hsplit : pySplit fqn dotChar with _ | ⟨a, _ | ⟨b, _ | ⟨c, rest⟩⟩⟩
    · simp [SQLMeshParsedFQN.parse, hsplit]
    · simp [SQLMeshParsedFQN.parse, hsplit]
    · simp [SQLMeshParsedFQN.parse, hsplit]
    · rw [hsplit] at hlen; simp at hlen; omega
  · intro a b c rest hsplit
    simp [SQLMeshParsedFQN.parse, hsplit]

/-- C1 (witness): at `"only.two"` the split has two segments and parsing
fails; at `"a.b.c.d"` the split has four segments and parsing succeeds on the
first three. -/
theorem claim_C1_witness :
    SQLMeshParsedFQN.parse "only.two" = none ∧
    SQLMeshParsedFQN.parse "a.b.c.d"
      = some { catalog := stripChars quoteChars "a",
               schema := stripChars quoteChars "b",
               view_name := stripChars quoteChars "c" } :=
  ⟨(claim_C1_amended "only.two").1 (by decide),
   (claim_C1_amended "a.b.c.d").2 "a" "b" "c" ["d"] (by decide)⟩

/-- C2 (counterexample): feeding the quoted identifier `"my-table"` to
`get_asset_key_str` produces `sqlmesh____my-table`, which contains a hyphen,
so the output is not restricted to alphanumerics and underscores. -/
theorem claim_C2_counterexample :
    SQLMeshDagsterTranslator.get_asset_key_str quotedHyphenFqn
      = "sqlmesh__" ++ "__my-table" ∧
    ¬ (∀ ch ∈ (SQLMeshDagsterTranslator.get_asset_key_str quotedHyphenFqn).data,
        isIdentChar ch = true) := by
  constructor
  · decide
  · intro h
    exact absurd (h (Char.ofNat 45) (by decide)) (by decide)

/-- C2 (amended): for every fqn string the output of `get_asset_key_str` is
non-empty and starts with the prefix `sqlmesh__`; it contains only
alphanumeric characters and underscores whenever the components produced by
the table-reference decomposition do. -/
theorem claim_C2_amended (fqn : String) :
    SQLMeshDagsterTranslator.get_asset_key_str fqn ≠ "" ∧
    (∃ rest, SQLMeshDagsterTranslator.get_asset_key_str fqn
      = "sqlmesh__" ++ rest) ∧
    ((∀ ch ∈ (toTable fqn).catalog.data ++ (toTable fqn).db.data
        ++ (toTable fqn).name.data, isIdentChar ch = true) →
      ∀ ch ∈ (SQLMeshDagsterTranslator.get_asset_key_str fqn).data,
        isIdentChar ch = true) := by
  have hflat : SQLMeshDagsterTranslator.get_asset_key_str fqn
      = flattenTriple (toTable fqn).catalog (toTable fqn).db
          (toTable fqn).name := rfl
  refine ⟨?_, ⟨joinWith "_" [(toTable fqn).catalog, (toTable fqn).db,
    (toTable fqn).name], rfl⟩, ?_⟩
  · intro h
    have hdata := congrArg String.data h
    rw [hflat, data_flattenTriple] at hdata
    simp [String.ext_iff] at hdata
  · intro hcomp ch hch
    rw [hflat, data_flattenTriple] at hch
    have hident : isIdentChar underscoreChar = true := by decide
    have hsql : ∀ x ∈ "sqlmesh".data, isIdentChar x = true := by decide
    rcases List.mem_append.mp hch with h1 | h2
    · exact hsql ch h1
    rcases List.mem_cons.mp h2 with he | h3
    · rw [he]; exact hident
    rcases List.mem_cons.mp h3 with he | h4
    · rw [he]; exact hident
    rcases List.mem_append.mp h4 with h5 | h6
    · exact hcomp ch (List.mem_append_left _ (List.mem_append_left _ h5))
    rcases List.mem_cons.mp h6 with he | h7
    · rw [he]; exact hident
    rcases List.mem_append.mp h7 with h8 | h9
    · exact hcomp ch (List.mem_append_left _ (List.mem_append_right _ h8))
    rcases List.mem_cons.mp h9 with he | h10
    · rw [he]; exact hident
    exact hcomp ch (List.mem_append_right _ h10)

/-- C2 (witness): at the fqn `a.b.c` the decomposed components are
alphanumeric and the flat identifier is made of identifier characters only. -/
theorem claim_C2_witness :
    SQLMeshDagsterTranslator.get_asset_key_str "a.b.c" ≠ "" ∧
    (∃ rest, SQLMeshDagsterTranslator.get_asset_key_str "a.b.c"
      = "sqlmesh__" ++ rest) ∧
    (∀ ch ∈ (SQLMeshDagsterTranslator.get_asset_key_str "a.b.c").data,
      isIdentChar ch = true) :=
  ⟨(claim_C2_amended "a.b.c").1, (claim_C2_amended "a.b.c").2.1,
   (claim_C2_amended "a.b.c").2.2 (by decide)⟩

/-- C3 (counterexample): the distinct triples `(a_b, c, d)` and `(a, b_c, d)`
are drawn from the alphanumeric/underscore alphabet, yet they flatten to the
same string, so `get_asset_key_str`'s flattening is not injective over that
alphabet. -/
theorem claim_C3_counterexample :
    (∀ ch ∈ ("a_b" ++ "c" ++ "d" ++ "a" ++ "b_c" ++ "d").data,
      isIdentChar ch = true) ∧
    ¬ ("a_b" = "a" ∧ "c" = "b_c" ∧ "d" = "d") ∧
    flattenTriple "a_b" "c" "d" = flattenTriple "a" "b_c" "d" := by
  refine ⟨by decide, by decide, by decide⟩

/-- C3 (amended): the flattening underlying `get_asset_key_str` is
deterministic and injective over distinct (catalog, schema, name) triples
drawn from the purely alphanumeric alphabet (underscore excluded from the
components): two distinct such triples flatten to different strings. -/
theorem claim_C3_amended (c₁ d₁ n₁ c₂ d₂ n₂ : String)
    (hc₁ : ∀ ch ∈ c₁.data, ch.isAlphanum = true)
    (hd₁ : ∀ ch ∈ d₁.data, ch.isAlphanum = true)
    (hn₁ : ∀ ch ∈ n₁.data, ch.isAlphanum = true)
    (hc₂ : ∀ ch ∈ c₂.data, ch.isAlphanum = true)
    (hd₂ : ∀ ch ∈ d₂.data, ch.isAlphanum = true)
    (hn₂ : ∀ ch ∈ n₂.data, ch.isAlphanum = true)
    (hne : ¬ (c₁ = c₂ ∧ d₁ = d₂ ∧ n₁ = n₂)) :
    flattenTriple c₁ d₁ n₁ ≠ flattenTriple c₂ d₂ n₂ := by
  intro heq
  have hsplit := congrArg (fun s => pySplit s underscoreChar) heq
  simp only at hsplit
  rw [pySplit_flattenTriple c₁ d₁ n₁
        (fun ch hch => alphanum_ne_underscore ch (hc₁ ch hch))
        (fun ch hch => alphanum_ne_underscore ch (hd₁ ch hch))
        (fun ch hch => alphanum_ne_underscore ch (hn₁ ch hch)),
      pySplit_flattenTriple c₂ d₂ n₂
        (fun ch hch => alphanum_ne_underscore ch (hc₂ ch hch))
        (fun ch hch => alphanum_ne_underscore ch (hd₂ ch hch))
        (fun ch hch => alphanum_ne_underscore ch (hn₂ ch hch))] at hsplit
  simp only [List.cons.injEq] at hsplit
  exact hne ⟨hsplit.2.2.1, hsplit.2.2.2.1, hsplit.2.2.2.2.1⟩

/-- C3 (witness): the distinct alphanumeric triples `(a, b, c)` and
`(a, b, d)` flatten to different strings. -/
theorem claim_C3_witness :
    flattenTriple "a" "b" "c" ≠ flattenTriple "a" "b" "d" :=
  claim_C3_amended "a" "b" "c" "a" "b" "d" (by decide) (by decide) (by decide)
    (by decide) (by decide) (by decide) (by decide)

/-- C4 (code bug): `to_asset_out` never omits the `kinds` keyword — it always
passes it, with value `None` when the platform's `AssetOut` constructor does
not declare it, so on such platforms the constructor call raises `TypeError`
instead of silently succeeding; when the parameter is supported the stored
kinds value is passed through. -/
theorem claim_C4_kinds_bug :
    (kindsOutExample.assetOutCall false).kindsArg = some none ∧
    kindsOutExample.to_asset_out false
      = Except.error
          "TypeError: AssetOut got an unexpected keyword argument kinds" ∧
    kindsOutExample.to_asset_out true
      = Except.ok
          { key := { path := ["k"] }, tags := none, is_required := true,
            group_name := none, kinds := some ["dbt"] } :=
  ⟨rfl, rfl, rfl⟩

/-- C5: `create_asset_out` called with only `model_key` and `asset_key`
yields `is_required = false`, while constructing `IntermediateAssetOut`
directly without specifying `is_required` uses the dataclass default `true`. -/
theorem claim_C5_defaults (mkey akey : String) :
    (SQLMeshDagsterTranslator.create_asset_out mkey akey {}).is_required
        = false ∧
    ({ model_key := mkey, asset_key := akey } :
        IntermediateAssetOut).is_required = true :=
  ⟨rfl, rfl⟩

/-- C6: for every model, `get_group_name` computes `path[-2]` of the
`get_asset_key_name` components, which is the middle (schema/database)
segment of the three-component path. -/
theorem claim_C6_group_name (m : Model) :
    SQLMeshDagsterTranslator.get_group_name m
      = pyIndexFromEnd (SQLMeshDagsterTranslator.get_asset_key_name m.fqn) 2 ∧
    (∃ c d n, SQLMeshDagsterTranslator.get_asset_key_name m.fqn = [c, d, n] ∧
      SQLMeshDagsterTranslator.get_group_name m = some d) :=
  ⟨rfl, (toTable m.fqn).catalog, (toTable m.fqn).db, (toTable m.fqn).name,
    rfl, rfl⟩

/-- C7: on every input whose dot-split yields exactly three segments,
`SQLMeshParsedFQN.parse` strips single/double quotes from each segment and
assigns them positionally to catalog, schema and view name. -/
theorem claim_C7_parse_valid (fqn a b c : String)
    (h : pySplit fqn dotChar = [a, b, c]) :
    SQLMeshParsedFQN.parse fqn
      = some { catalog := stripChars quoteChars a,
               schema := stripChars quoteChars b,
               view_name := stripChars quoteChars c } := by
  simp [SQLMeshParsedFQN.parse, h]

/-- C7 (witness): parsing the identifier `'a'."b".c` yields catalog `a`,
schema `b` and view name `c`. -/
theorem claim_C7_witness :
    SQLMeshParsedFQN.parse quotedFqnExample
      = some { catalog := "a", schema := "b", view_name := "c" } :=
  (claim_C7_parse_valid quotedFqnExample
    (squoteStr ++ "a" ++ squoteStr) "\"b\"" "c" (by decide)).trans (by decide)

/-- C8: for every model, `get_tags` returns a mapping whose keys are exactly
the model's tag names and whose values are all the empty string. -/
theorem claim_C8_tags (m : Model) :
    ((SQLMeshDagsterTranslator.get_tags m).map Prod.fst
        = pyDictKeys m.tags) ∧
    (∀ k, k ∈ (SQLMeshDagsterTranslator.get_tags m).map Prod.fst ↔
        k ∈ m.tags) ∧
    ((SQLMeshDagsterTranslator.get_tags m).all (fun p => p.2 = "") = true) := by
  refine ⟨?_, ?_, ?_⟩
  · simp [SQLMeshDagsterTranslator.get_tags, List.map_map, Function.comp_def]
  · intro k
    simp [SQLMeshDagsterTranslator.get_tags, List.map_map, Function.comp_def,
      mem_pyDictKeys]
  · simp [SQLMeshDagsterTranslator.get_tags, List.all_eq_true]

/-- C8 (witness): a model with tags `["a", "b"]` gets the tag mapping
`[("a", ""), ("b", "")]`. -/
theorem claim_C8_witness :
    SQLMeshDagsterTranslator.get_tags { fqn := "x", tags := ["a", "b"] }
      = [("a", ""), ("b", "")] ∧
    (∀ k, k ∈ (SQLMeshDagsterTranslator.get_tags
        { fqn := "x", tags := ["a", "b"] }).map Prod.fst ↔ k ∈ ["a", "b"]) :=
  ⟨by decide, (claim_C8_tags { fqn := "x", tags := ["a", "b"] }).2.1⟩

/-- C9: resolving an `IntermediateAssetDep` built from a key string yields
exactly the platform key built directly from that user string. -/
theorem claim_C9_roundtrip (s : String) :
    (IntermediateAssetDep.mk s).to_asset_key = AssetKey.from_user_string s :=
  rfl

/-- C10: for every fqn string the internal flat identifier agrees with the
public key path: `get_asset_key_str` equals `sqlmesh__` followed by the
`get_asset_key_name` components joined with underscores. -/
theorem claim_C10_agreement (fqn : String) :
    SQLMeshDagsterTranslator.get_asset_key_str fqn
      = "sqlmesh__"
          ++ joinWith "_" (SQLMeshDagsterTranslator.get_asset_key_name fqn) :=
  rfl
